import Mathlib

/-!
# go-healthz: aggregation handler and server lifecycle

A shallow embedding of `healthz.go` and `server.go`.

* The outside world the checks and the logger act on is an explicit state `σ`,
  threaded through every call.
* A Go `error` is an `Option String`: `none` is `nil`, `some m` is an error whose
  `Error()` text is `m`.
* A call through a nil interface value, and a `close` of a closed channel, are
  run-time panics: functions that can reach one return `Except String`, the
  `.error` case being the panic.
* `http.ResponseWriter` is a recorder of the header, the status code and the
  chunks written, as `httptest.ResponseRecorder` is; like it and like the writer of
  the `net/http` server, `WriteHeader` panics on a code outside 100..999.
* `json.Marshal` produces a JSON tree; the `omitempty` tags of `Response` decide
  which keys the tree has.
-/

set_option autoImplicit false

namespace Healthz

/-! ## Data model (healthz.go) -/

/-- A Go `error` value: `none` is nil, `some m` has `Error() = m`. -/
abbrev GoError := Option String

/-- The `logger` interface; the variadic arguments are a list of strings. -/
structure Logger (σ : Type) where
  Info : List String → σ → σ
  Error : List String → σ → σ
  Fatal : List String → σ → σ

/-- A `Provider`: `Handle` is the `Checkable`, whose `Healthz()` is evaluated in the
current state and may change it. -/
structure Provider (σ : Type) where
  Handle : σ → GoError × σ
  Name : String

/-- The `Error` record of the response. -/
structure Error where
  Name : String
  Message : String
deriving DecidableEq, Repr

/-- The `Service` record of the response. -/
structure Service where
  Name : String
  Healthy : Bool
deriving DecidableEq, Repr

/-- The `Response` struct; a slice is a list, nil and empty alike (the code only
takes `len` of them and ranges over them). -/
structure Response where
  Services : List Service
  Errors : List Error
  Healthy : Bool
deriving DecidableEq, Repr

/-- The `Instance` struct. `Providers = none` is the nil slice, `Logger = none` the
nil interface. -/
structure Instance (σ : Type) where
  Providers : Option (List (Provider σ))
  Logger : Option (Logger σ)
  Detailed : Bool
  FailCode : Int

/-- The `noLog` sink: every method does nothing. -/
def noLog {σ : Type} : Logger σ :=
  { Info := fun _ s => s, Error := fun _ s => s, Fatal := fun _ s => s }

/-- The panic of a method call through a nil interface or pointer. -/
def nilDeref : String := "invalid memory address or nil pointer dereference"

/-! ## JSON encoding of the response -/

/-- JSON trees, as far as `Response` needs them. -/
inductive JSON where
  | bool (b : Bool)
  | str (s : String)
  | arr (xs : List JSON)
  | obj (fields : List (String × JSON))

/-- The keys of a JSON object, in order. -/
def JSON.keys : JSON → List String
  | .obj fields => fields.map Prod.fst
  | _ => []

/-- The value under a key of a JSON object. -/
def JSON.lookup (k : String) : JSON → Option JSON
  | .obj fields => (fields.find? (fun f => f.1 == k)).map Prod.snd
  | _ => none

/-- Encoding of an `Error`: keys `name`, `message`. -/
def Error.toJSON (e : Error) : JSON :=
  .obj [("name", .str e.Name), ("message", .str e.Message)]

/-- Encoding of a `Service`: keys `name`, `healthy`. -/
def Service.toJSON (v : Service) : JSON :=
  .obj [("name", .str v.Name), ("healthy", .bool v.Healthy)]

/-- The encoding of a `Response`: fields in struct order; `services` and `errors` carry
`omitempty` and are left out when their slice has length 0; `healthy` is always
there. No value of `Response` makes the encoder fail. -/
def Response.toJSON (r : Response) : JSON :=
  .obj (
    (if r.Services.length = 0 then [] else [("services", JSON.arr (r.Services.map Service.toJSON))]) ++
    (if r.Errors.length = 0 then [] else [("errors", JSON.arr (r.Errors.map Error.toJSON))]) ++
    [("healthy", JSON.bool r.Healthy)])

/-- The call `json.Marshal(response)` of the handler, with its error result. -/
def Marshal (r : Response) : Except String JSON :=
  .ok r.toJSON

/-! ## The response writer -/

/-- One `Write` call: raw bytes, or the bytes of an encoded JSON tree. -/
inductive Body where
  | raw (s : String)
  | encoded (j : JSON)

/-- The recorded state of an `http.ResponseWriter`: the header, the status code fixed
by the first `WriteHeader` (or implied by the first `Write`), and the chunks written. -/
structure ResponseWriter where
  header : List (String × String)
  code : Option Int
  body : List Body

/-- The writer a request starts with. -/
def ResponseWriter.fresh : ResponseWriter :=
  { header := [], code := none, body := [] }

/-- The call `w.Header().Set(k, v)`. -/
def ResponseWriter.SetHeader (w : ResponseWriter) (k v : String) : ResponseWriter :=
  { w with header := (w.header.filter (fun kv => kv.1 != k)) ++ [(k, v)] }

/-- The constant `http.StatusOK`. -/
def StatusOK : Int := 200

/-- The check `checkWriteHeaderCode(code)` every `WriteHeader` of the standard library
makes: a code below 100 or above 999 is a panic. -/
def checkWriteHeaderCode (code : Int) : Except String Unit :=
  if code < 100 ∨ code > 999 then .error ("invalid WriteHeader code " ++ toString code)
  else .ok ()

/-- The call `w.WriteHeader(code)`: once a status is written further calls are ignored;
otherwise the code is checked and then fixed as the status. -/
def ResponseWriter.WriteHeader (w : ResponseWriter) (code : Int) : Except String ResponseWriter :=
  match w.code with
  | some _ => .ok w
  | none => do
    checkWriteHeaderCode code
    pure { w with code := some code }

/-- The call `w.Write(b)`: writes status 200 first when no status was written yet. -/
def ResponseWriter.Write (w : ResponseWriter) (b : Body) : Except String ResponseWriter := do
  let w1 ← w.WriteHeader StatusOK
  pure { w1 with body := w1.body ++ [b] }

/-- The constant `http.StatusServiceUnavailable`. -/
def StatusServiceUnavailable : Int := 503

/-! ## The handlers (healthz.go) -/

/-- A handler built by an `Instance`. The closure holds the pointer `h`, so at request
time it reads the instance as it then is: that instance is the first argument. -/
abbrev HandlerFunc (σ : Type) := Instance σ → ResponseWriter → σ → Except String (ResponseWriter × σ)

/-- The `for _, provider := range h.Providers` loop of the handler, with the
accumulators `errs` and `srvs`. -/
def pollLoop {σ : Type} : List (Provider σ) → List Error → List Service → σ →
    List Error × List Service × σ
  | [], errs, srvs, s => (errs, srvs, s)
  | provider :: rest, errs, srvs, s =>
    let service : Service := { Name := provider.Name, Healthy := true }
    match provider.Handle s with
    | (some err, s1) =>
      let errs := errs ++ [{ Name := provider.Name, Message := err }]
      let service := { service with Healthy := false }
      pollLoop rest errs (srvs ++ [service]) s1
    | (none, s1) => pollLoop rest errs (srvs ++ [service]) s1

/-- The body of the handler returned by `Healthz()`. -/
def healthzHandler {σ : Type} : HandlerFunc σ := fun h w s => do
  let w := w.SetHeader "Content-Type" "application/json"
  let (errs, srvs, s) :=
    match h.Providers with
    | some providers => pollLoop providers [] [] s
    | none => ([], [], s)
  let response : Response := { Services := [], Errors := errs, Healthy := true }
  let response := if h.Detailed then { response with Services := srvs } else response
  let (response, w) ←
    if errs.length > 0 then do
      let response := { response with Healthy := false }
      if h.FailCode ≠ 0 then do
        let w ← w.WriteHeader h.FailCode
        pure (response, w)
      else do
        let w ← w.WriteHeader StatusServiceUnavailable
        pure (response, w)
    else do
      let w ← w.WriteHeader StatusOK
      pure (response, w)
  match Marshal response with
  | .ok json => do
    let w ← w.Write (.encoded json)
    pure (w, s)
  | .error err =>
    match h.Logger with
    | none => .error nilDeref
    | some l => do
      let s := l.Error ["Unable to marshal healthz errors:", err] s
      let w ← w.Write (.raw "")
      pure (w, s)

/-- The method `(h *Instance) Healthz()`: installs `noLog` when no logger is set, logs, returns
the handler. The result carries the instance as the call leaves it. -/
def Instance.Healthz {σ : Type} (h : Instance σ) (s : σ) :
    Except String (Instance σ × HandlerFunc σ × σ) :=
  let h := match h.Logger with
    | none => { h with Logger := some noLog }
    | some _ => h
  match h.Logger with
  | none => .error nilDeref
  | some l => .ok (h, healthzHandler, l.Info ["[Healthz] health service started"] s)

/-- The body of the handler returned by `Liveness()`. -/
def livenessHandler {σ : Type} : HandlerFunc σ := fun _ w s => do
  let w ← w.WriteHeader StatusOK
  let w ← w.Write (.raw "OK")
  pure (w, s)

/-- The method `(h *Instance) Liveness()`: logs through `h.Logger` as it is, returns the handler. -/
def Instance.Liveness {σ : Type} (h : Instance σ) (s : σ) :
    Except String (Instance σ × HandlerFunc σ × σ) :=
  match h.Logger with
  | none => .error nilDeref
  | some l => .ok (h, livenessHandler, l.Info ["[Healthz] Liveness service started"] s)

/-! ## The server (server.go) -/

/-- The constant `time.Second`, in nanoseconds. -/
def Second : Nat := 1000000000

/-- A `*log.Logger`, known by the name of its sink. -/
abbrev StdLogger := String

/-- An `http.ServeMux`: the registered patterns with their handlers. -/
abbrev ServeMux (σ : Type) := List (String × HandlerFunc σ)

/-- The call `mux.Handle(pattern, handler)`: panics on an empty pattern and on a pattern
registered before. -/
def ServeMux.Handle {σ : Type} (mux : ServeMux σ) (pattern : String) (handler : HandlerFunc σ) :
    Except String (ServeMux σ) :=
  if pattern = "" then .error "http: invalid pattern"
  else if mux.any (fun e => e.1 == pattern) then
    .error ("http: multiple registrations for " ++ pattern)
  else .ok (mux ++ [(pattern, handler)])

/-- The fields of `http.Server` that `Handle` sets. -/
structure HTTPServer (σ : Type) where
  Addr : String
  Handler : ServeMux σ
  ErrorLog : Option StdLogger
  ReadTimeout : Nat
  WriteTimeout : Nat
  IdleTimeout : Nat

/-- The `Server` struct; `Instance = none` is the nil pointer. -/
structure Server (σ : Type) where
  ListenAddr : String
  Instance : Option (Healthz.Instance σ)
  ServerLogger : Option StdLogger

/-- The text of the error `Handle` returns for a nil `Instance`. -/
def errNoConfig : String := "No healthz configuration passed to the server"

/-- The method `(h *Server) Handle()`: the pair `(server, err)` it returns, with the `Server`
(whose instance `Healthz()` may have given a logger) and the state after the call. -/
def Server.Handle {σ : Type} (h : Server σ) (s : σ) :
    Except String (Server σ × Option (HTTPServer σ) × GoError × σ) :=
  match h.Instance with
  | none => .ok (h, none, some errNoConfig, s)
  | some inst => do
    let mux : ServeMux σ := []
    let (inst, hz, s) ← inst.Healthz s
    let mux ← mux.Handle "/healthz" hz
    let (inst, lv, s) ← inst.Liveness s
    let mux ← mux.Handle "/liveness" lv
    let server : HTTPServer σ :=
      { Addr := h.ListenAddr
        Handler := mux
        ErrorLog := h.ServerLogger
        ReadTimeout := 5 * Second
        WriteTimeout := 10 * Second
        IdleTimeout := 15 * Second }
    pure ({ h with Instance := some inst }, some server, none, s)

/-- The process state `Start` and `gracefulShutdown` act on: the two package-level
channels `done` and `quit`, the goroutines and listeners started, and the outside state. -/
structure Runtime (σ : Type) where
  /-- The package-level `done` has been closed. -/
  doneClosed : Bool
  /-- Signals waiting in the package-level `quit`, a channel of capacity 1. -/
  quit : Nat
  /-- The call `signal.Notify(quit, os.Interrupt)` has been made. -/
  notified : Bool
  /-- Addresses of the servers a `gracefulShutdown` goroutine was started for. -/
  watchers : List String
  /-- Addresses `ListenAndServe` was called on. -/
  listened : List String
  /-- Addresses of the servers `Shutdown` was called on. -/
  stopped : List String
  world : σ

/-- The state of a process at start: `done` open, `quit` empty, nothing running. -/
def Runtime.init {σ : Type} (s : σ) : Runtime σ :=
  { doneClosed := false, quit := 0, notified := false, watchers := [], listened := [],
    stopped := [], world := s }

/-- The statement `close(done)`: closing a closed channel panics. -/
def Runtime.closeDone {σ : Type} (r : Runtime σ) : Except String (Runtime σ) :=
  if r.doneClosed then .error "close of closed channel"
  else .ok { r with doneClosed := true }

/-- A channel value of type `chan bool` in this package: nil (`none`) or `done`. -/
inductive ChanRef where
  | done
deriving DecidableEq, Repr

/-- What a receive `<-c` does. -/
inductive Recv where
  /-- The channel is closed: the receive returns at once. -/
  | ready
  /-- The channel is open and nobody sends: the receive waits for a close. -/
  | waiting
  /-- The channel is nil: the receive never returns. -/
  | never
deriving DecidableEq, Repr

/-- A receive on a value returned by `Start`: nothing is ever sent on `done`. -/
def Runtime.recv {σ : Type} (r : Runtime σ) : Option ChanRef → Recv
  | none => .never
  | some .done => if r.doneClosed then .ready else .waiting

/-- The text of `http.ErrServerClosed`. -/
def ErrServerClosed : String := "http: Server closed"

/-- The method `(h *Server) Start()`, run to its return. `serveErr` is the error `ListenAndServe`
returns when it stops serving. The result is the pair `(chan, err)`. -/
def Server.Start {σ : Type} (h : Server σ) (serveErr : String) (r : Runtime σ) :
    Except String (Server σ × Option ChanRef × GoError × Runtime σ) := do
  let (h, server, err, s) ← h.Handle r.world
  let r := { r with world := s }
  match err with
  | some err =>
    let r ← r.closeDone
    pure (h, none, some err, r)
  | none =>
    let r := { r with notified := true }
    match server, h.Instance with
    | some server, some inst =>
      let r := { r with watchers := r.watchers ++ [server.Addr] }
      match inst.Logger with
      | none => .error nilDeref
      | some l =>
        let r := { r with world := l.Info ["[Healthz-Server]: listening on ", h.ListenAddr] r.world }
        let r := { r with listened := r.listened ++ [server.Addr] }
        let r :=
          if serveErr ≠ ErrServerClosed then
            { r with world :=
                l.Fatal ["[Healthz-Server]: Could not listen on ", h.ListenAddr, serveErr] r.world }
          else r
        pure (h, some .done, none, r)
    | _, _ => .error nilDeref

/-- The method `(h *Server) gracefulShutdown(server)`, run from the receive on `quit` to its end.
While `quit` is empty the goroutine stays at the receive and the state is unchanged.
`shutdownErr` is what `server.Shutdown(ctx)` returns. -/
def Server.gracefulShutdown {σ : Type} (h : Server σ) (server : HTTPServer σ)
    (shutdownErr : GoError) (r : Runtime σ) : Except String (Runtime σ) :=
  if r.quit = 0 then .ok r
  else
    let r := { r with quit := r.quit - 1 }
    match h.Instance with
    | none => .error nilDeref
    | some inst =>
      match inst.Logger with
      | none => .error nilDeref
      | some l => do
        let r := { r with world := l.Info ["[Healthz-Server]: shutting down..."] r.world }
        let r := { r with stopped := r.stopped ++ [server.Addr] }
        let r :=
          match shutdownErr with
          | some err =>
            let args := ["[Healthz-Server]: Could not gracefully shutdown the server: %v\n", err]
            { r with world := l.Fatal args r.world }
          | none => r
        let r ← r.closeDone
        pure { r with world := l.Info ["[Healthz-Server]: Shut down"] r.world }

/-- Delivery of an interrupt signal: sent to `quit` without blocking when `Notify` was
called and the buffer has room, dropped otherwise. -/
def Runtime.interrupt {σ : Type} (r : Runtime σ) : Runtime σ :=
  if r.notified ∧ r.quit = 0 then { r with quit := 1 } else r

/-! ## Runs of the lifecycle -/

/-- One event of a process that uses this package: a call of `Start` run to its return,
the delivery of an interrupt, or a `gracefulShutdown` goroutine run from its receive. -/
inductive Step (σ : Type) where
  | start (h : Server σ) (serveErr : String)
  | interrupt
  | watcher (h : Server σ) (server : HTTPServer σ) (shutdownErr : GoError)

/-- The state after one event, or the panic the event ends in. -/
def Runtime.step {σ : Type} (r : Runtime σ) : Step σ → Except String (Runtime σ)
  | .start h serveErr => (h.Start serveErr r).map (fun out => out.2.2.2)
  | .interrupt => .ok r.interrupt
  | .watcher h server shutdownErr => h.gracefulShutdown server shutdownErr r

/-- The state after a sequence of events, or the first panic. -/
def Runtime.run {σ : Type} (r : Runtime σ) : List (Step σ) → Except String (Runtime σ)
  | [] => .ok r
  | st :: rest =>
    match r.step st with
    | .ok r1 => r1.run rest
    | .error p => .error p

/-! ## What the checks return -/

/-- The providers the handler ranges over: those of `h.Providers`, none for a nil slice. -/
def Instance.registry {σ : Type} (h : Instance σ) : List (Provider σ) :=
  h.Providers.getD []

/-- The checks evaluated one after the other from state `s`, in registry order: the
name of each with what its `Healthz()` returned, and the state after the last one. -/
def evalChecks {σ : Type} : List (Provider σ) → σ → List (String × GoError) × σ
  | [], s => ([], s)
  | p :: ps, s =>
    let r := p.Handle s
    let rest := evalChecks ps r.2
    ((p.Name, r.1) :: rest.1, rest.2)

/-- One `Error` entry per failing check of a list of results, in order. -/
def errorsOf (results : List (String × GoError)) : List Error :=
  results.filterMap (fun r => r.2.map (fun m => { Name := r.1, Message := m }))

/-- One `Service` record per check of a list of results, healthy when it returned nil. -/
def servicesOf (results : List (String × GoError)) : List Service :=
  results.map (fun r => { Name := r.1, Healthy := r.2.isNone })

/-- The response in closed form: what the handler sends from state `s`, as a function
of the results of the checks. -/
def Instance.response {σ : Type} (h : Instance σ) (s : σ) : Response :=
  { Services := if h.Detailed then servicesOf (evalChecks h.registry s).1 else []
    Errors := errorsOf (evalChecks h.registry s).1
    Healthy := (errorsOf (evalChecks h.registry s).1).isEmpty }

/-- The status in closed form: what the handler writes from state `s`. -/
def Instance.status {σ : Type} (h : Instance σ) (s : σ) : Int :=
  if (errorsOf (evalChecks h.registry s).1).length > 0 then
    (if h.FailCode ≠ 0 then h.FailCode else StatusServiceUnavailable)
  else StatusOK

/-! ## Fixtures (healthz_test.go) -/

/-- The constant `errMsg` of the tests. -/
def errMsg : String := "provider_failed"

/-- The function `providerError(name)`: the reason a failing test provider gives. -/
def providerError (name : String) : String :=
  name ++ "-" ++ errMsg

/-- The `healthProvider` of the tests. -/
structure healthProvider where
  Name : String
  Healthy : Bool

/-- The method `(h healthProvider) Healthz()`. -/
def healthProvider.Healthz (h : healthProvider) : GoError :=
  if h.Healthy then none else some (providerError h.Name)

/-- The method `(h healthProvider) provider()`. The check leaves the state alone. -/
def healthProvider.provider {σ : Type} (h : healthProvider) : Provider σ :=
  { Handle := fun s => (h.Healthz, s), Name := h.Name }

/-- The instance of `TestCustomErrorCode`: one failing provider, summary mode, with the
FailCode given. -/
def customCodeInstance (code : Int) : Instance Unit :=
  { Providers := some [(healthProvider.mk "Test2" false).provider]
    Logger := some noLog
    Detailed := false
    FailCode := code }

/-- The instance of `TestMixedSimple` (detailed off) and `TestMixedDetailed` (detailed
on): four providers, the second and the fourth failing. -/
def mixedInstance (detailed : Bool) : Instance Unit :=
  { Providers := some
      [(healthProvider.mk "test1" true).provider, (healthProvider.mk "Test2" false).provider,
       (healthProvider.mk "Test3" true).provider, (healthProvider.mk "Test4" false).provider]
    Logger := some noLog
    Detailed := detailed
    FailCode := 0 }

/-! ## The handler in closed form -/

section Lemmas

variable {σ : Type}

theorem pollLoop_eq (ps : List (Provider σ)) (errs : List Error) (srvs : List Service) (s : σ) :
    pollLoop ps errs srvs s =
      (errs ++ errorsOf (evalChecks ps s).1, srvs ++ servicesOf (evalChecks ps s).1,
        (evalChecks ps s).2) := by
  induction ps generalizing errs srvs s with
  | nil => simp [pollLoop, evalChecks, errorsOf, servicesOf]
  | cons p ps ih =>
    simp only [pollLoop, evalChecks]
    rcases hp : p.Handle s with ⟨e, s1⟩
    cases e <;> simp [ih, errorsOf, servicesOf]

theorem errorsOf_eq_nil (results : List (String × GoError)) :
    errorsOf results = [] ↔ results.all (fun r => r.2.isNone) = true := by
  induction results with
  | nil => simp [errorsOf]
  | cons r rs ih =>
    rcases r with ⟨n, e⟩
    cases e <;> simp_all [errorsOf, List.filterMap_cons]

theorem healthzHandler_eq (h : Instance σ) (s : σ) :
    healthzHandler h ResponseWriter.fresh s =
      if h.status s < 100 ∨ h.status s > 999 then
        .error ("invalid WriteHeader code " ++ toString (h.status s))
      else
        .ok ({ header := [("Content-Type", "application/json")], code := some (h.status s),
               body := [.encoded (h.response s).toJSON] }, (evalChecks h.registry s).2) := by
  have hpoll : (match h.Providers with
      | some providers => pollLoop providers [] [] s
      | none => ([], [], s)) =
      (errorsOf (evalChecks h.registry s).1, servicesOf (evalChecks h.registry s).1,
        (evalChecks h.registry s).2) := by
    cases hp : h.Providers with
    | none => simp [Instance.registry, hp, evalChecks, errorsOf, servicesOf]
    | some ps => simp [Instance.registry, hp, pollLoop_eq]
  unfold healthzHandler
  simp only [hpoll]
  by_cases he : (errorsOf (evalChecks h.registry s).1).length > 0
  · have hE : (errorsOf (evalChecks h.registry s).1).isEmpty = false := by
      cases hx : errorsOf (evalChecks h.registry s).1 with
      | nil => simp [hx] at he
      | cons e es => rfl
    by_cases hf : h.FailCode ≠ 0
    · by_cases hv : h.FailCode < 100 ∨ h.FailCode > 999 <;> cases hd : h.Detailed <;>
        simp [he, hf, hd, hE, hv, Marshal, Instance.status, Instance.response,
          ResponseWriter.fresh, ResponseWriter.SetHeader, ResponseWriter.WriteHeader,
          ResponseWriter.Write, checkWriteHeaderCode, bind, Except.bind, pure, Except.pure]
    · cases hd : h.Detailed <;>
        simp [he, hf, hd, hE, Marshal, Instance.status, Instance.response,
          ResponseWriter.fresh, ResponseWriter.SetHeader, ResponseWriter.WriteHeader,
          ResponseWriter.Write, checkWriteHeaderCode, bind, Except.bind, pure, Except.pure,
          StatusServiceUnavailable]
  · have hE : (errorsOf (evalChecks h.registry s).1).isEmpty = true := by
      cases hx : errorsOf (evalChecks h.registry s).1 with
      | nil => rfl
      | cons e es => simp [hx] at he
    cases hd : h.Detailed <;>
      simp [he, hd, hE, Marshal, Instance.status, Instance.response, ResponseWriter.fresh,
        ResponseWriter.SetHeader, ResponseWriter.WriteHeader, ResponseWriter.Write,
        checkWriteHeaderCode, bind, Except.bind, pure, Except.pure, StatusOK]

theorem all_pass_iff (results : List (String × GoError)) :
    (errorsOf results).length > 0 ↔ results.all (fun r => r.2.isNone) = false := by
  have h := errorsOf_eq_nil results
  cases hx : errorsOf results with
  | nil =>
    have := h.mp hx
    simp [this]
  | cons e es =>
    have hne : ¬ (results.all (fun r => r.2.isNone) = true) := fun hall => by
      have := h.mpr hall
      simp [hx] at this
    simp only [List.length_cons, gt_iff_lt, Nat.zero_lt_succ, true_iff]
    exact Bool.eq_false_iff.mpr hne

theorem status_eq (h : Instance σ) (s : σ) :
    h.status s =
      if (evalChecks h.registry s).1.all (fun r => r.2.isNone) then 200
      else if h.FailCode ≠ 0 then h.FailCode else 503 := by
  unfold Instance.status
  by_cases he : (errorsOf (evalChecks h.registry s).1).length > 0
  · have := (all_pass_iff _).mp he
    simp [he, this, StatusServiceUnavailable]
  · have hall : (evalChecks h.registry s).1.all (fun r => r.2.isNone) = true := by
      have := (all_pass_iff (evalChecks h.registry s).1).not.mp he
      simpa using this
    simp only [he, hall, if_true, if_false, StatusOK]

theorem status_accepted (h : Instance σ) (s : σ)
    (hc : (evalChecks h.registry s).1.all (fun r => r.2.isNone) = true ∨ h.FailCode = 0 ∨
      (100 ≤ h.FailCode ∧ h.FailCode ≤ 999)) :
    ¬ (h.status s < 100 ∨ h.status s > 999) := by
  rw [status_eq]
  by_cases hall : (evalChecks h.registry s).1.all (fun r => r.2.isNone) = true
  · simp [hall]
  · by_cases hf : h.FailCode = 0
    · simp [hall, hf]
    · have hv : 100 ≤ h.FailCode ∧ h.FailCode ≤ 999 := by
        rcases hc with hc | hc | hc
        · exact absurd hc hall
        · exact absurd hc hf
        · exact hc
      simp only [hall, hf, ne_eq, not_false_eq_true, if_true, if_false]
      omega

theorem healthzHandler_ok (h : Instance σ) (s : σ)
    (hc : (evalChecks h.registry s).1.all (fun r => r.2.isNone) = true ∨ h.FailCode = 0 ∨
      (100 ≤ h.FailCode ∧ h.FailCode ≤ 999)) :
    healthzHandler h ResponseWriter.fresh s =
      .ok ({ header := [("Content-Type", "application/json")], code := some (h.status s),
             body := [.encoded (h.response s).toJSON] }, (evalChecks h.registry s).2) := by
  rw [healthzHandler_eq, if_neg (status_accepted h s hc)]

theorem healthz_ctor_eq (h : Instance σ) (s : σ) :
    h.Healthz s =
      .ok ({ h with Logger := some (h.Logger.getD noLog) }, healthzHandler,
        (h.Logger.getD noLog).Info ["[Healthz] health service started"] s) := by
  rcases h with ⟨ps, lg, d, c⟩
  cases lg <;> rfl

theorem handle_some_eq (h : Server σ) (inst : Instance σ) (s : σ) (hi : h.Instance = some inst) :
    h.Handle s =
      .ok ({ h with Instance := some { inst with Logger := some (inst.Logger.getD noLog) } },
        some { Addr := h.ListenAddr
               Handler := [("/healthz", healthzHandler), ("/liveness", livenessHandler)]
               ErrorLog := h.ServerLogger
               ReadTimeout := 5 * Second
               WriteTimeout := 10 * Second
               IdleTimeout := 15 * Second },
        none,
        (inst.Logger.getD noLog).Info ["[Healthz] Liveness service started"]
          ((inst.Logger.getD noLog).Info ["[Healthz] health service started"] s)) := by
  unfold Server.Handle
  simp only [hi, healthz_ctor_eq]
  simp [bind, Except.bind, ServeMux.Handle, Instance.Liveness, pure, Except.pure]

theorem handle_none_eq (h : Server σ) (s : σ) (hi : h.Instance = none) :
    h.Handle s = .ok (h, none, some errNoConfig, s) := by
  unfold Server.Handle
  simp only [hi]

theorem start_none_eq (h : Server σ) (serveErr : String) (r : Runtime σ)
    (hi : h.Instance = none) :
    h.Start serveErr r =
      if r.doneClosed then .error "close of closed channel"
      else .ok (h, none, some errNoConfig, { r with doneClosed := true }) := by
  unfold Server.Start
  rw [handle_none_eq h r.world hi]
  cases hc : r.doneClosed <;>
    simp [bind, Except.bind, Runtime.closeDone, hc, pure, Except.pure]

theorem start_some_eq (h : Server σ) (inst : Instance σ) (serveErr : String) (r : Runtime σ)
    (hi : h.Instance = some inst) :
    h.Start serveErr r =
      .ok ({ h with Instance := some { inst with Logger := some (inst.Logger.getD noLog) } },
        some ChanRef.done, none,
        { r with
          notified := true
          watchers := r.watchers ++ [h.ListenAddr]
          listened := r.listened ++ [h.ListenAddr]
          world :=
            (if serveErr ≠ ErrServerClosed then
              (inst.Logger.getD noLog).Fatal
                ["[Healthz-Server]: Could not listen on ", h.ListenAddr, serveErr]
             else id)
              ((inst.Logger.getD noLog).Info ["[Healthz-Server]: listening on ", h.ListenAddr]
                ((inst.Logger.getD noLog).Info ["[Healthz] Liveness service started"]
                  ((inst.Logger.getD noLog).Info ["[Healthz] health service started"]
                    r.world))) }) := by
  unfold Server.Start
  rw [handle_some_eq h inst r.world hi]
  by_cases he : serveErr = ErrServerClosed <;>
    simp [bind, Except.bind, pure, Except.pure, he]

end Lemmas

/-! ## The claims -/

section Claims

variable {σ : Type}

/-- C1, as amended. For every instance (any registry, any detailed flag) and from every
state in which `WriteHeader` accepts the status to write, that is, no check returns an
error, or FailCode is 0, or FailCode is in 100..999, the Healthz handler completes and
the status code it writes is 200 when no check returned an error, and otherwise FailCode
when that is not 0 and 503 when it is; with the detailed flag set either way the handler
writes that same status code. -/
theorem healthz_status_code (h : Instance σ) (s : σ)
    (hc : (evalChecks h.registry s).1.all (fun r => r.2.isNone) = true ∨ h.FailCode = 0 ∨
      (100 ≤ h.FailCode ∧ h.FailCode ≤ 999)) :
    ∃ w s', healthzHandler h ResponseWriter.fresh s = .ok (w, s') ∧
      w.code = some (if (evalChecks h.registry s).1.all (fun r => r.2.isNone) then 200
                     else if h.FailCode ≠ 0 then h.FailCode else 503) ∧
      ∀ d : Bool, ∃ wd sd,
        healthzHandler { h with Detailed := d } ResponseWriter.fresh s = .ok (wd, sd) ∧
        wd.code = w.code := by
  refine ⟨_, _, healthzHandler_ok h s hc, ?_, ?_⟩
  · simp only [status_eq]
  · intro d
    refine ⟨_, _, healthzHandler_ok { h with Detailed := d } s hc, ?_⟩
    simp [Instance.status, Instance.registry]

/-- C1, witness: the instance of `TestCustomErrorCode`, a failing check with FailCode 200. -/
theorem healthz_status_code_witness :
    ((evalChecks (customCodeInstance 200).registry ()).1.all (fun r => r.2.isNone) = true ∨
      (customCodeInstance 200).FailCode = 0 ∨
      (100 ≤ (customCodeInstance 200).FailCode ∧ (customCodeInstance 200).FailCode ≤ 999)) ∧
    ∃ w s', healthzHandler (customCodeInstance 200) ResponseWriter.fresh () = .ok (w, s') ∧
      w.code = some
        (if (evalChecks (customCodeInstance 200).registry ()).1.all (fun r => r.2.isNone) then 200
         else if (customCodeInstance 200).FailCode ≠ 0 then (customCodeInstance 200).FailCode
         else 503) ∧
      ∀ d : Bool, ∃ wd sd,
        healthzHandler { customCodeInstance 200 with Detailed := d } ResponseWriter.fresh () =
          .ok (wd, sd) ∧
        wd.code = w.code :=
  ⟨Or.inr (Or.inr ⟨by decide, by decide⟩),
    healthz_status_code (customCodeInstance 200) () (Or.inr (Or.inr ⟨by decide, by decide⟩))⟩

/-- C1, counterexample. With one failing check and FailCode 1 the handler panics in
`WriteHeader`: it does not complete with status 1 written, nor with any status. -/
theorem healthz_status_code_counterexample :
    healthzHandler (customCodeInstance 1) ResponseWriter.fresh () =
      .error "invalid WriteHeader code 1" ∧
    ¬ ∃ (w : ResponseWriter) (s' : Unit),
      healthzHandler (customCodeInstance 1) ResponseWriter.fresh () = .ok (w, s') ∧
      w.code = some 1 := by
  have hp : healthzHandler (customCodeInstance 1) ResponseWriter.fresh () =
      .error "invalid WriteHeader code 1" := by
    have hs : (customCodeInstance 1).status () = 1 := by decide
    rw [healthzHandler_eq, hs]
    rfl
  refine ⟨hp, ?_⟩
  rintro ⟨w, s', hw, -⟩
  rw [hp] at hw
  cases hw

/-- C2. From every state in which `WriteHeader` accepts the status to write (no check
returns an error, or FailCode is 0 or in 100..999) the Healthz handler sends a response
whose errors list has one entry for each check that returned an error and none for a
check that returned nil, in registry order, the entry holding the registered name of the
check and the text of the error it returned; the `errors` key of the body is the array of
the objects with that `name` and that `message`, and is left out when no check failed. -/
theorem healthz_errors_list (h : Instance σ) (s : σ)
    (hc : (evalChecks h.registry s).1.all (fun r => r.2.isNone) = true ∨ h.FailCode = 0 ∨
      (100 ≤ h.FailCode ∧ h.FailCode ≤ 999)) :
    ∃ (resp : Response) (w : ResponseWriter) (s' : σ),
      healthzHandler h ResponseWriter.fresh s = .ok (w, s') ∧
      w.body = [.encoded resp.toJSON] ∧
      resp.Errors = (evalChecks h.registry s).1.filterMap
        (fun r => r.2.map (fun m => ({ Name := r.1, Message := m } : Error))) ∧
      resp.toJSON.lookup "errors" =
        (if (evalChecks h.registry s).1.all (fun r => r.2.isNone) then none
         else some (.arr ((evalChecks h.registry s).1.filterMap
           (fun r => r.2.map (fun m => JSON.obj [("name", .str r.1), ("message", .str m)]))))) := by
  refine ⟨h.response s, _, _, healthzHandler_ok h s hc, rfl, rfl, ?_⟩
  have hmap : (errorsOf (evalChecks h.registry s).1).map Error.toJSON =
      (evalChecks h.registry s).1.filterMap
        (fun r => r.2.map (fun m => JSON.obj [("name", .str r.1), ("message", .str m)])) := by
    generalize (evalChecks h.registry s).1 = results
    induction results with
    | nil => rfl
    | cons r rs ih =>
      rcases r with ⟨n, e⟩
      cases e <;> simp_all [errorsOf, List.filterMap_cons, Error.toJSON]
  by_cases hall : (evalChecks h.registry s).1.all (fun r => r.2.isNone) = true
  · have he : errorsOf (evalChecks h.registry s).1 = [] := (errorsOf_eq_nil _).mpr hall
    cases hd : h.Detailed <;> cases hs : servicesOf (evalChecks h.registry s).1 <;>
      simp [Response.toJSON, JSON.lookup, Instance.response, he, hall, hd, hs]
  · have he : (errorsOf (evalChecks h.registry s).1).length ≠ 0 := by
      intro h0
      exact hall ((errorsOf_eq_nil _).mp (List.length_eq_zero.mp h0))
    cases hd : h.Detailed <;> cases hs : servicesOf (evalChecks h.registry s).1 <;>
      simp [Response.toJSON, JSON.lookup, Instance.response, he, hall, hd, hs, hmap]

/-- C2, witness: the instance of `TestMixedSimple`, two of four checks failing. -/
theorem healthz_errors_list_witness :
    ((evalChecks (mixedInstance false).registry ()).1.all (fun r => r.2.isNone) = true ∨
      (mixedInstance false).FailCode = 0 ∨
      (100 ≤ (mixedInstance false).FailCode ∧ (mixedInstance false).FailCode ≤ 999)) ∧
    ∃ (resp : Response) (w : ResponseWriter) (s' : Unit),
      healthzHandler (mixedInstance false) ResponseWriter.fresh () = .ok (w, s') ∧
      w.body = [.encoded resp.toJSON] ∧
      resp.Errors = (evalChecks (mixedInstance false).registry ()).1.filterMap
        (fun r => r.2.map (fun m => ({ Name := r.1, Message := m } : Error))) ∧
      resp.toJSON.lookup "errors" =
        (if (evalChecks (mixedInstance false).registry ()).1.all (fun r => r.2.isNone) then none
         else some (.arr ((evalChecks (mixedInstance false).registry ()).1.filterMap
           (fun r => r.2.map (fun m => JSON.obj [("name", .str r.1), ("message", .str m)]))))) :=
  ⟨Or.inr (Or.inl rfl), healthz_errors_list (mixedInstance false) () (Or.inr (Or.inl rfl))⟩

/-- C3, as amended. From every state in which `WriteHeader` accepts the status to write
(no check returns an error, or FailCode is 0 or in 100..999) the Healthz handler sends a
response whose healthy flag is true exactly when its errors list is empty, which is
exactly when every check returned nil; the flag is the `healthy` key of the body, and the
body has the `errors` key exactly when the flag is false. Among the FailCodes 0 and
100..999 the FailCode changes the status only: with each of them the handler sends the
same header and body and leaves the same state, and with FailCode 200 the status is 200
also when a check fails, the flag being false and the errors listed. -/
theorem healthz_healthy_flag (h : Instance σ) (s : σ)
    (hc : (evalChecks h.registry s).1.all (fun r => r.2.isNone) = true ∨ h.FailCode = 0 ∨
      (100 ≤ h.FailCode ∧ h.FailCode ≤ 999)) :
    ∃ (resp : Response) (w : ResponseWriter) (s' : σ),
      healthzHandler h ResponseWriter.fresh s = .ok (w, s') ∧
      w.body = [.encoded resp.toJSON] ∧
      (resp.Healthy = true ↔ resp.Errors = []) ∧
      (resp.Healthy = true ↔ (evalChecks h.registry s).1.all (fun r => r.2.isNone) = true) ∧
      resp.toJSON.lookup "healthy" = some (.bool resp.Healthy) ∧
      ("errors" ∈ resp.toJSON.keys ↔ resp.Healthy = false) ∧
      (∀ c : Int, c = 0 ∨ (100 ≤ c ∧ c ≤ 999) → ∃ wc : ResponseWriter,
        healthzHandler { h with FailCode := c } ResponseWriter.fresh s = .ok (wc, s') ∧
        wc.body = w.body ∧ wc.header = w.header) ∧
      (∃ wc : ResponseWriter,
        healthzHandler { h with FailCode := 200 } ResponseWriter.fresh s = .ok (wc, s') ∧
        wc.code = some 200 ∧ wc.body = [.encoded resp.toJSON]) := by
  refine ⟨h.response s, _, _, healthzHandler_ok h s hc, rfl, ?_, ?_, ?_, ?_, ?_, ?_⟩
  · simp [Instance.response]
  · rw [← errorsOf_eq_nil]
    simp [Instance.response]
  · cases hs : (h.response s).Services <;> cases he : (h.response s).Errors <;>
      simp [Response.toJSON, JSON.lookup, hs, he]
  · cases hd : h.Detailed <;> cases hs : servicesOf (evalChecks h.registry s).1 <;>
      cases he : errorsOf (evalChecks h.registry s).1 <;>
      simp [Response.toJSON, JSON.keys, Instance.response, hs, he, hd]
  · intro c hv
    exact ⟨_, healthzHandler_ok { h with FailCode := c } s (Or.inr hv), rfl, rfl⟩
  · have h200 : (100 : Int) ≤ 200 ∧ (200 : Int) ≤ 999 := ⟨by decide, by decide⟩
    refine ⟨_, healthzHandler_ok { h with FailCode := 200 } s (Or.inr (Or.inr h200)), ?_, rfl⟩
    simp only [status_eq]
    split <;> simp

/-- C3, witness: the instance of `TestCustomErrorCode`, a failing check with FailCode 200. -/
theorem healthz_healthy_flag_witness :
    ((evalChecks (customCodeInstance 200).registry ()).1.all (fun r => r.2.isNone) = true ∨
      (customCodeInstance 200).FailCode = 0 ∨
      (100 ≤ (customCodeInstance 200).FailCode ∧ (customCodeInstance 200).FailCode ≤ 999)) ∧
    ∃ (resp : Response) (w : ResponseWriter) (s' : Unit),
      healthzHandler (customCodeInstance 200) ResponseWriter.fresh () = .ok (w, s') ∧
      w.body = [.encoded resp.toJSON] ∧
      (resp.Healthy = true ↔ resp.Errors = []) ∧
      (resp.Healthy = true ↔
        (evalChecks (customCodeInstance 200).registry ()).1.all (fun r => r.2.isNone) = true) ∧
      resp.toJSON.lookup "healthy" = some (.bool resp.Healthy) ∧
      ("errors" ∈ resp.toJSON.keys ↔ resp.Healthy = false) ∧
      (∀ c : Int, c = 0 ∨ (100 ≤ c ∧ c ≤ 999) → ∃ wc : ResponseWriter,
        healthzHandler { customCodeInstance 200 with FailCode := c } ResponseWriter.fresh () =
          .ok (wc, s') ∧
        wc.body = w.body ∧ wc.header = w.header) ∧
      (∃ wc : ResponseWriter,
        healthzHandler { customCodeInstance 200 with FailCode := 200 } ResponseWriter.fresh () =
          .ok (wc, s') ∧
        wc.code = some 200 ∧ wc.body = [.encoded resp.toJSON]) :=
  ⟨Or.inr (Or.inr ⟨by decide, by decide⟩),
    healthz_healthy_flag (customCodeInstance 200) () (Or.inr (Or.inr ⟨by decide, by decide⟩))⟩

/-- C3, counterexample. With one failing check the handler sends, for FailCode 0, the body
with `errors` and `healthy` false, and for FailCode 1000 no response at all: it panics in
`WriteHeader`. The override does not leave the payload as it is with FailCode 0. -/
theorem healthz_healthy_flag_counterexample :
    (∃ w : ResponseWriter,
      healthzHandler (customCodeInstance 0) ResponseWriter.fresh () = .ok (w, ()) ∧
      w.body = [.encoded (.obj
        [("errors", .arr [.obj [("name", .str "Test2"),
            ("message", .str "Test2-provider_failed")]]),
         ("healthy", .bool false)])]) ∧
    ¬ ∃ (w : ResponseWriter) (s' : Unit),
      healthzHandler (customCodeInstance 1000) ResponseWriter.fresh () = .ok (w, s') := by
  constructor
  · exact ⟨_, healthzHandler_ok (customCodeInstance 0) () (Or.inr (Or.inl rfl)), rfl⟩
  · have hs : (customCodeInstance 1000).status () = 1000 := by decide
    rintro ⟨w, s', hw⟩
    rw [healthzHandler_eq, hs] at hw
    cases hw

/-- C4. From every state in which `WriteHeader` accepts the status to write (no check
returns an error, or FailCode is 0 or in 100..999) the Healthz handler sends a response
whose services field is, with detailed mode on, one record per registered check, in
registration order, holding the name of the check and healthy = true exactly when the
check returned nil, and with detailed mode off is empty. The body has the `services` key
exactly when detailed mode is on and the registry has a check, and then it is the array
of the objects with that `name` and that `healthy`: with detailed mode off the body never
has the key. -/
theorem healthz_services_field (h : Instance σ) (s : σ)
    (hc : (evalChecks h.registry s).1.all (fun r => r.2.isNone) = true ∨ h.FailCode = 0 ∨
      (100 ≤ h.FailCode ∧ h.FailCode ≤ 999)) :
    ∃ (resp : Response) (w : ResponseWriter) (s' : σ),
      healthzHandler h ResponseWriter.fresh s = .ok (w, s') ∧
      w.body = [.encoded resp.toJSON] ∧
      resp.Services =
        (if h.Detailed then
          (evalChecks h.registry s).1.map (fun r => ({ Name := r.1, Healthy := r.2.isNone } : Service))
         else []) ∧
      (evalChecks h.registry s).1.map Prod.fst = h.registry.map Provider.Name ∧
      ("services" ∈ resp.toJSON.keys ↔ h.Detailed = true ∧ h.registry ≠ []) ∧
      resp.toJSON.lookup "services" =
        (if h.Detailed && !h.registry.isEmpty then
          some (.arr ((evalChecks h.registry s).1.map
            (fun r => JSON.obj [("name", .str r.1), ("healthy", .bool r.2.isNone)])))
         else none) := by
  have hnames : ∀ (ps : List (Provider σ)) (t : σ),
      (evalChecks ps t).1.map Prod.fst = ps.map Provider.Name := by
    intro ps
    induction ps with
    | nil => intro t; rfl
    | cons p ps ih => intro t; simp [evalChecks, ih]
  have hlen : (evalChecks h.registry s).1.length = h.registry.length := by
    have := congrArg List.length (hnames h.registry s)
    simpa using this
  refine ⟨h.response s, _, _, healthzHandler_ok h s hc, rfl, ?_, hnames _ _, ?_, ?_⟩
  · simp [Instance.response, servicesOf]
  · cases hd : h.Detailed <;> cases hr : h.registry <;>
      cases he : errorsOf (evalChecks h.registry s).1 <;>
      simp_all [Response.toJSON, JSON.keys, Instance.response, servicesOf, hd, hr]
  · cases hd : h.Detailed <;> cases hr : h.registry <;>
      cases he : errorsOf (evalChecks h.registry s).1 <;>
      simp_all [Response.toJSON, JSON.lookup, Instance.response, servicesOf, hd, hr,
        Service.toJSON]

/-- C4, witness: the instance of `TestMixedDetailed`, two of four checks failing. -/
theorem healthz_services_field_witness :
    ((evalChecks (mixedInstance true).registry ()).1.all (fun r => r.2.isNone) = true ∨
      (mixedInstance true).FailCode = 0 ∨
      (100 ≤ (mixedInstance true).FailCode ∧ (mixedInstance true).FailCode ≤ 999)) ∧
    ∃ (resp : Response) (w : ResponseWriter) (s' : Unit),
      healthzHandler (mixedInstance true) ResponseWriter.fresh () = .ok (w, s') ∧
      w.body = [.encoded resp.toJSON] ∧
      resp.Services =
        (if (mixedInstance true).Detailed then
          (evalChecks (mixedInstance true).registry ()).1.map
            (fun r => ({ Name := r.1, Healthy := r.2.isNone } : Service))
         else []) ∧
      (evalChecks (mixedInstance true).registry ()).1.map Prod.fst =
        (mixedInstance true).registry.map Provider.Name ∧
      ("services" ∈ resp.toJSON.keys ↔
        (mixedInstance true).Detailed = true ∧ (mixedInstance true).registry ≠ []) ∧
      resp.toJSON.lookup "services" =
        (if (mixedInstance true).Detailed && !(mixedInstance true).registry.isEmpty then
          some (.arr ((evalChecks (mixedInstance true).registry ()).1.map
            (fun r => JSON.obj [("name", .str r.1), ("healthy", .bool r.2.isNone)])))
         else none) :=
  ⟨Or.inr (Or.inl rfl), healthz_services_field (mixedInstance true) () (Or.inr (Or.inl rfl))⟩

/-- C5, as amended. For an instance whose registry has no check (nil or empty), with
detailed mode on or off and any FailCode, the Healthz handler writes status 200 and a body
whose only key is `healthy`, with value true: neither `errors` nor `services` is in it. -/
theorem healthz_no_checks (h : Instance σ) (s : σ)
    (h0 : h.Providers = none ∨ h.Providers = some []) :
    ∃ w : ResponseWriter, healthzHandler h ResponseWriter.fresh s = .ok (w, s) ∧
      w.code = some 200 ∧
      w.body = [.encoded (.obj [("healthy", .bool true)])] := by
  have hr : h.registry = [] := by
    rcases h0 with h0 | h0 <;> simp [Instance.registry, h0]
  refine ⟨{ header := [("Content-Type", "application/json")], code := some 200,
            body := [.encoded (.obj [("healthy", .bool true)])] }, ?_, rfl, rfl⟩
  rw [healthzHandler_ok h s (Or.inl (by simp [hr, evalChecks]))]
  cases hd : h.Detailed <;>
    simp [Instance.status, Instance.response, hr, hd, evalChecks, errorsOf, servicesOf,
      Response.toJSON, StatusOK]

/-- C5, witness: an instance with a nil registry and detailed mode on. -/
theorem healthz_no_checks_witness :
    ((⟨none, none, true, 0⟩ : Instance Nat).Providers = none ∨
      (⟨none, none, true, 0⟩ : Instance Nat).Providers = some []) ∧
    ∃ w : ResponseWriter,
      healthzHandler (⟨none, none, true, 0⟩ : Instance Nat) ResponseWriter.fresh 0 = .ok (w, 0) ∧
      w.code = some 200 ∧
      w.body = [.encoded (.obj [("healthy", .bool true)])] :=
  ⟨Or.inl rfl, healthz_no_checks ⟨none, none, true, 0⟩ 0 (Or.inl rfl)⟩

/-- C5, counterexample. With an empty registry and detailed mode on, the body the Healthz
handler writes has no `services` key: it is not true that the handler sends a body in
which `services` is present. -/
theorem healthz_no_checks_detailed_counterexample :
    ¬ ∃ (w : ResponseWriter) (s' : Unit) (j : JSON),
      healthzHandler (⟨some [], none, true, 0⟩ : Instance Unit) ResponseWriter.fresh () =
        .ok (w, s') ∧
      w.body = [.encoded j] ∧ "services" ∈ j.keys := by
  rintro ⟨w, s', j, hw, hb, hk⟩
  rw [healthzHandler_ok _ _ (Or.inr (Or.inl rfl))] at hw
  simp only [Except.ok.injEq, Prod.mk.injEq] at hw
  obtain ⟨hw, -⟩ := hw
  subst hw
  simp only [List.cons.injEq, Body.encoded.injEq, and_true] at hb
  subst hb
  simp [Instance.response, Instance.registry, evalChecks, errorsOf, servicesOf,
    Response.toJSON, JSON.keys] at hk

/-- C6. For every instance with a logger, `Liveness()` returns a handler, and that
handler, whatever the instance is at the time of the request (any registry, any detailed
flag, any FailCode) and whatever the state, writes status 200 and the body `OK` and
leaves the state as it was: no check is evaluated. -/
theorem liveness_handler (h : Instance σ) (l : Logger σ) (s : σ) :
    ∃ hd : HandlerFunc σ,
      Instance.Liveness { h with Logger := some l } s =
        .ok ({ h with Logger := some l }, hd, l.Info ["[Healthz] Liveness service started"] s) ∧
      ∀ (req : Instance σ) (t : σ),
        hd req ResponseWriter.fresh t =
          .ok ({ header := [], code := some 200, body := [.raw "OK"] }, t) :=
  ⟨livenessHandler, rfl, fun _ _ => rfl⟩

/-- C7. `Server.Handle` returns, for every Server and from every state: when the Instance
is nil, the error and no server; when there is an Instance, a server and no error, the
server having the routes `/healthz` and `/liveness`, the address and logger of the Server
and the timeouts 5 s, 10 s and 15 s. -/
theorem server_handle (h : Server σ) (s : σ) :
    ∃ (h' : Server σ) (server : Option (HTTPServer σ)) (err : GoError) (s' : σ),
      h.Handle s = .ok (h', server, err, s') ∧
      err = (if h.Instance.isNone then some errNoConfig else none) ∧
      server.isSome = h.Instance.isSome ∧
      server.map (fun v => v.Handler.map Prod.fst) =
        h.Instance.map (fun _ => ["/healthz", "/liveness"]) ∧
      server.map (fun v => (v.Addr, v.ErrorLog, v.ReadTimeout, v.WriteTimeout, v.IdleTimeout)) =
        h.Instance.map (fun _ => (h.ListenAddr, h.ServerLogger, 5 * Second, 10 * Second,
          15 * Second)) := by
  cases hi : h.Instance with
  | none => exact ⟨_, _, _, _, handle_none_eq h s hi, by simp⟩
  | some inst => exact ⟨_, _, _, _, handle_some_eq h inst s hi, by simp⟩

/-- C8, the code at a Server without Instance, in a process where `done` is still open:
`Start` returns the error of `Handle` with a nil channel, having closed the package-level
`done` and neither listened nor started a watcher. A receive on the returned nil channel
never returns, while one on `done` would return at once. -/
theorem start_without_instance (h : Server σ) (serveErr : String) (s : σ) :
    ∃ r : Runtime σ,
      Server.Start { h with Instance := none } serveErr (Runtime.init s) =
        .ok ({ h with Instance := none }, none, some errNoConfig, r) ∧
      r.doneClosed = true ∧ r.listened = [] ∧ r.watchers = [] ∧
      r.recv none = Recv.never ∧ r.recv (some ChanRef.done) = Recv.ready := by
  refine ⟨{ Runtime.init s with doneClosed := true }, ?_, rfl, rfl, rfl, rfl, rfl⟩
  rw [start_none_eq _ _ _ rfl]
  rfl

/-- C9, the code on two runs that close the package-level `done` twice. Two calls of
`Start` on a Server without Instance: the first closes `done`, the second closes it again
and panics. Two Servers with an Instance, each started and each followed by an interrupt
and the run of its shutdown watcher: the first watcher closes `done`, the second closes it
again and panics. -/
theorem start_twice_closes_done_twice (h h1 h2 : Server σ) (i1 i2 : Instance σ)
    (v1 v2 : HTTPServer σ) (e1 e2 : String) (s : σ) :
    (Runtime.init s).run
        [Step.start { h with Instance := none } e1, Step.start { h with Instance := none } e2] =
      .error "close of closed channel" ∧
    (Runtime.init s).run
        [Step.start { h1 with Instance := some i1 } e1,
         Step.start { h2 with Instance := some i2 } e2,
         Step.interrupt,
         Step.watcher
           { h1 with Instance := some { i1 with Logger := some (i1.Logger.getD noLog) } } v1 none,
         Step.interrupt,
         Step.watcher
           { h2 with Instance := some { i2 with Logger := some (i2.Logger.getD noLog) } } v2 none] =
      .error "close of closed channel" := by
  constructor
  · simp [Runtime.run, Runtime.step, start_none_eq, Runtime.init, Except.map]
  · simp [Runtime.run, Runtime.step, start_some_eq, Runtime.init, Except.map,
      Runtime.interrupt, Server.gracefulShutdown, Runtime.closeDone, bind, Except.bind,
      pure, Except.pure]

/-- C10, the code at an instance without logger: `Liveness()` calls `Info` through the nil
logger and panics, while `Healthz()` installs the no-op logger and returns its handler. -/
theorem liveness_without_logger (h : Instance σ) (s : σ) :
    Instance.Liveness { h with Logger := none } s = .error nilDeref ∧
    Instance.Healthz { h with Logger := none } s =
      .ok ({ h with Logger := some noLog }, healthzHandler, s) :=
  ⟨rfl, rfl⟩

end Claims

end Healthz
